import Mathlib

/-!
Verification of the smart-meal-planner recommendation and scheduling engine
(`src/app.py`, `src/config.py`) against its natural-language specification.

The Python classes are shallowly embedded as Lean structures and pure
functions.  Mutable object state becomes explicit state passing; Python
floats used for prices/discounts/hours become `ℚ` (all arithmetic in the
program is addition/subtraction/division on decimal inputs, no rounding
behaviour is at stake in any claim); Python string containment `a in b`
becomes infix-of on character lists; `str.lower()`/`str.strip()` become
`py_lower`/`py_strip` (ASCII-faithful, kernel-computable models).
-/

namespace MealPlanner

/-- Python `needle in haystack` on strings: substring containment. -/
def substr (needle haystack : String) : Bool :=
  decide (needle.data <:+: haystack.data)

/-- Python `str.lower()` on one character (ASCII case conversion, the only
case conversion the program's ingredient/name data exercises). -/
def lower_char (c : Char) : Char :=
  if 65 ≤ c.toNat ∧ c.toNat ≤ 90 then Char.ofNat (c.toNat + 32) else c

/-- Python `str.lower()`. -/
def py_lower (s : String) : String :=
  ⟨s.data.map lower_char⟩

/-- Whitespace for Python `str.strip()`. -/
def is_space_char (c : Char) : Bool :=
  c = ' ' || c = '\t' || c = '\n' || c = '\r'

/-- Python `str.strip()`: drop leading and trailing whitespace. -/
def py_strip (s : String) : String :=
  ⟨((s.data.dropWhile is_space_char).reverse.dropWhile is_space_char).reverse⟩

/-- Python `lst[-k:]`: the last `k` elements (the whole list when `k ≥ length`). -/
def takeLast {α : Type} (l : List α) (k : ℕ) : List α :=
  l.drop (l.length - k)

/-! ### Sale items (`extract_sale_items` record shape) -/

/-- A sale item record as built by `extract_sale_items`:
name, regular price, promotional price, savings, source category,
discount percentage. -/
structure SaleItem where
  name : String
  regular_price : ℚ
  sale_price : ℚ
  savings : ℚ
  category : String
  discount_percentage : ℚ
deriving DecidableEq, Repr

/-! ### `PurchaseTimingAnalyzer` -/

/-- `PurchaseTimingAnalyzer.buy_thresholds` (excellent / good / modest). -/
def buy_thresholds : ℚ × ℚ × ℚ := (25, 15, 8)

/-- The record returned by `PurchaseTimingAnalyzer.get_recommendation`.
The `reason` field of the Python dict is pure display interpolation of the
input percentage into a fixed template and is not modelled. -/
structure Advice where
  action : String
  confidence : String
  timing : String
deriving DecidableEq, Repr

/-- `PurchaseTimingAnalyzer.get_recommendation` (the `item_name` argument is
unused by the source and kept for fidelity). -/
def get_recommendation (item_name : String) (discount_percentage : ℚ) : Advice :=
  if discount_percentage ≥ buy_thresholds.1 then
    { action := "🛒 Buy Now & Stock Up"
      confidence := "High"
      timing := "Great deal - buy extra for meal prep" }
  else if discount_percentage ≥ buy_thresholds.2.1 then
    { action := "🛒 Buy for This Week"
      confidence := "Medium"
      timing := "Good price for immediate use" }
  else if discount_percentage ≥ buy_thresholds.2.2 then
    { action := "🤔 Consider If Needed"
      confidence := "Medium"
      timing := "Buy if you need it this week" }
  else
    { action := "⏰ Wait for Better Deal"
      confidence := "Low"
      timing := "Wait unless urgently needed" }

/-- `PurchaseTimingAnalyzer._get_weekly_strategy`. -/
def get_weekly_strategy (total_savings : ℚ) (high_value_count : ℕ) : String :=
  if total_savings > 20 then
    "Great week for savings! Focus on items with 20%+ discounts."
  else if total_savings > 10 then
    "Decent savings available. Consider stocking up on non-perishables."
  else
    "Light sales week. Good time to use up what you have at home."

/-- The record returned by `PurchaseTimingAnalyzer.analyze_weekly_savings`. -/
structure WeeklySavings where
  total_possible_savings : ℚ
  high_value_count : ℕ
  average_discount : ℚ
  recommendation : String
deriving DecidableEq, Repr

/-- `PurchaseTimingAnalyzer.analyze_weekly_savings`: Python computes the
average discount as `sum / len(sale_items) if sale_items else 0`. -/
def analyze_weekly_savings (sale_items : List SaleItem) : WeeklySavings :=
  let total_savings := (sale_items.map (·.savings)).sum
  let high_value_items := sale_items.filter (fun i => decide (i.discount_percentage ≥ 20))
  { total_possible_savings := total_savings
    high_value_count := high_value_items.length
    average_discount :=
      if sale_items ≠ [] then
        (sale_items.map (·.discount_percentage)).sum / sale_items.length
      else 0
    recommendation := get_weekly_strategy total_savings high_value_items.length }

/-! ### `FamilyPreferencesManager` -/

/-- Texture preference flags of the preferences blob. -/
structure TexturePreferences where
  creamy : Bool
  crunchy : Bool
  spicy : Bool
  sweet : Bool
deriving DecidableEq, Repr

/-- The `preferences` dict of `FamilyPreferencesManager`. -/
structure Preferences where
  disliked_ingredients : List String
  loved_ingredients : List String
  neutral_ingredients : List String
  never_suggest_again : List String
  family_favorites : List String
  dietary_restrictions : List String
  spice_tolerance : String
  texture_preferences : TexturePreferences
deriving DecidableEq, Repr

/-- One entry of `meal_history["last_4_weeks"]`. -/
structure MealEntry where
  recipe : String
  date : String
deriving DecidableEq, Repr

/-- State of a `FamilyPreferencesManager` instance: the preferences blob and
the meal-history log (the `ingredient_frequency` counter is never read by the
engine and is not modelled). -/
structure FamilyState where
  preferences : Preferences
  last_4_weeks : List MealEntry
deriving DecidableEq, Repr

/-- `FamilyPreferencesManager.__init__`. -/
def initial_family_state : FamilyState :=
  { preferences :=
      { disliked_ingredients := []
        loved_ingredients := []
        neutral_ingredients := []
        never_suggest_again := []
        family_favorites := []
        dietary_restrictions := []
        spice_tolerance := "medium"
        texture_preferences := ⟨true, true, true, true⟩ }
    last_4_weeks := [] }

/-- `FamilyPreferencesManager.add_dislike`: normalize with `lower().strip()`,
append to dislikes when absent, and remove the first occurrence from loves. -/
def add_dislike (fam : FamilyState) (ingredient : String) : FamilyState :=
  let ingredient := py_strip (py_lower ingredient)
  if ingredient ∉ fam.preferences.disliked_ingredients then
    { fam with preferences :=
        { fam.preferences with
            disliked_ingredients := fam.preferences.disliked_ingredients ++ [ingredient]
            loved_ingredients :=
              if ingredient ∈ fam.preferences.loved_ingredients then
                fam.preferences.loved_ingredients.erase ingredient
              else fam.preferences.loved_ingredients } }
  else fam

/-- `FamilyPreferencesManager.add_love`: symmetric to `add_dislike`. -/
def add_love (fam : FamilyState) (ingredient : String) : FamilyState :=
  let ingredient := py_strip (py_lower ingredient)
  if ingredient ∉ fam.preferences.loved_ingredients then
    { fam with preferences :=
        { fam.preferences with
            loved_ingredients := fam.preferences.loved_ingredients ++ [ingredient]
            disliked_ingredients :=
              if ingredient ∈ fam.preferences.disliked_ingredients then
                fam.preferences.disliked_ingredients.erase ingredient
              else fam.preferences.disliked_ingredients } }
  else fam

/-- `FamilyPreferencesManager.ban_recipe`. -/
def ban_recipe (fam : FamilyState) (recipe_title : String) : FamilyState :=
  if recipe_title ∉ fam.preferences.never_suggest_again then
    { fam with preferences :=
        { fam.preferences with
            never_suggest_again := fam.preferences.never_suggest_again ++ [recipe_title] } }
  else fam

/-- `FamilyPreferencesManager.add_favorite`. -/
def add_favorite (fam : FamilyState) (recipe_title : String) : FamilyState :=
  if recipe_title ∉ fam.preferences.family_favorites then
    { fam with preferences :=
        { fam.preferences with
            family_favorites := fam.preferences.family_favorites ++ [recipe_title] } }
  else fam

/-- A recipe record of the static database built by
`SmartMealRotator._create_recipe_database`. -/
structure Recipe where
  title : String
  main_ingredients : List String
  all_ingredients : List String
  time : ℕ
  calories : ℕ
  tags : List String
deriving DecidableEq, Repr

/-- `FamilyPreferencesManager.recipe_contains_dislikes`: lowercases each
recipe ingredient and tests whether any (un-lowered) disliked entry occurs
in it as a substring. -/
def recipe_contains_dislikes (p : Preferences) (recipe : Recipe) : Bool :=
  let recipe_ingredients := recipe.all_ingredients.map py_lower
  p.disliked_ingredients.any fun disliked =>
    recipe_ingredients.any fun recipe_ing => substr disliked recipe_ing

/-- `FamilyPreferencesManager.recipe_is_banned`. -/
def recipe_is_banned (p : Preferences) (recipe : Recipe) : Bool :=
  decide (recipe.title ∈ p.never_suggest_again)

/-- `FamilyPreferencesManager.was_served_recently`: checks the last
`weeks_back * 7` history entries for the recipe's title. -/
def was_served_recently (fam : FamilyState) (recipe : Recipe) (weeks_back : ℕ) : Bool :=
  let recent_meals := takeLast fam.last_4_weeks (weeks_back * 7)
  decide (recipe.title ∈ recent_meals.map (·.recipe))

/-- `FamilyPreferencesManager.log_meal`: append the entry, then when the log
exceeds 28 entries keep only the last 28 (`lst[-28:]`). -/
def log_meal (fam : FamilyState) (recipe_title date : String) : FamilyState :=
  let h := fam.last_4_weeks ++ [⟨recipe_title, date⟩]
  { fam with last_4_weeks := if 28 < h.length then takeLast h 28 else h }

/-- A preference mutation, for stating invariants over call sequences. -/
inductive PrefOp
  | dislike (ingredient : String)
  | love (ingredient : String)
deriving DecidableEq, Repr

/-- Apply one preference mutation. -/
def apply_pref_op (fam : FamilyState) : PrefOp → FamilyState
  | .dislike i => add_dislike fam i
  | .love i => add_love fam i

/-- Apply a sequence of `add_dislike`/`add_love` calls in order. -/
def apply_pref_ops (fam : FamilyState) (ops : List PrefOp) : FamilyState :=
  ops.foldl apply_pref_op fam

/-- Replay a sequence of `log_meal (title, date)` calls in order. -/
def log_meals (fam : FamilyState) (calls : List (String × String)) : FamilyState :=
  calls.foldl (fun f c => log_meal f c.1 c.2) fam

/-! ### `SmartMealRotator._create_recipe_database` (static data) -/

/-- The `weekday_breakfast` recipe group. -/
def weekday_breakfast : List Recipe :=
  [ { title := "Turkey Sausage and Egg Scramble"
      main_ingredients := ["turkey sausage", "eggs", "spinach"]
      all_ingredients := ["turkey breakfast sausage", "eggs", "fresh spinach", "bell pepper", "onion", "olive oil"]
      time := 8, calories := 280, tags := ["high-protein", "healthy"] }
  , { title := "Greek Yogurt Parfait with Granola"
      main_ingredients := ["greek yogurt", "granola", "berries"]
      all_ingredients := ["greek yogurt", "granola", "mixed berries", "honey", "nuts"]
      time := 5, calories := 320, tags := ["quick", "healthy", "protein"] }
  , { title := "Avocado Toast with Turkey Bacon"
      main_ingredients := ["whole grain bread", "avocado", "turkey bacon"]
      all_ingredients := ["whole grain bread", "avocado", "turkey bacon", "tomato", "lime"]
      time := 8, calories := 350, tags := ["healthy-fats", "satisfying"] }
  , { title := "Smoothie Bowl with Protein"
      main_ingredients := ["protein powder", "frozen fruit", "spinach"]
      all_ingredients := ["protein powder", "frozen berries", "banana", "spinach", "almond milk", "chia seeds"]
      time := 5, calories := 300, tags := ["smoothie", "antioxidants"] } ]

/-- The `weekday_lunch` recipe group. -/
def weekday_lunch : List Recipe :=
  [ { title := "Grilled Chicken Caesar Wrap"
      main_ingredients := ["grilled chicken", "romaine", "whole wheat tortilla"]
      all_ingredients := ["grilled chicken breast", "romaine lettuce", "whole wheat tortilla", "light caesar dressing", "parmesan"]
      time := 10, calories := 380, tags := ["portable", "high-protein"] }
  , { title := "Quinoa Power Bowl"
      main_ingredients := ["quinoa", "chickpeas", "vegetables"]
      all_ingredients := ["quinoa", "chickpeas", "cucumber", "cherry tomatoes", "feta cheese", "olive oil"]
      time := 15, calories := 420, tags := ["vegetarian", "complete-protein"] }
  , { title := "Turkey and Hummus Wrap"
      main_ingredients := ["sliced turkey", "hummus", "vegetables"]
      all_ingredients := ["sliced turkey", "hummus", "whole wheat wrap", "lettuce", "cucumber", "red bell pepper"]
      time := 5, calories := 340, tags := ["quick", "lean-protein"] }
  , { title := "Black Bean and Rice Bowl"
      main_ingredients := ["black beans", "brown rice", "salsa"]
      all_ingredients := ["black beans", "brown rice", "salsa", "corn", "bell peppers", "cilantro"]
      time := 12, calories := 360, tags := ["vegetarian", "fiber-rich"] } ]

/-- The `weekday_dinner` recipe group. -/
def weekday_dinner : List Recipe :=
  [ { title := "Baked Salmon with Roasted Vegetables"
      main_ingredients := ["salmon", "broccoli", "sweet potato"]
      all_ingredients := ["salmon fillets", "broccoli", "sweet potato", "olive oil", "lemon", "herbs"]
      time := 25, calories := 420, tags := ["omega-3", "one-pan"] }
  , { title := "Grilled Chicken with Quinoa"
      main_ingredients := ["chicken breast", "quinoa", "green beans"]
      all_ingredients := ["chicken breast", "quinoa", "green beans", "garlic", "olive oil", "lemon"]
      time := 20, calories := 380, tags := ["lean-protein", "complete"] }
  , { title := "Turkey Meatballs with Zucchini Noodles"
      main_ingredients := ["ground turkey", "zucchini", "marinara"]
      all_ingredients := ["lean ground turkey", "zucchini", "marinara sauce", "garlic", "italian herbs"]
      time := 25, calories := 320, tags := ["low-carb", "lean"] }
  , { title := "Sheet Pan Chicken Fajitas"
      main_ingredients := ["chicken strips", "bell peppers", "onions"]
      all_ingredients := ["chicken breast strips", "bell peppers", "onions", "fajita seasoning", "olive oil"]
      time := 20, calories := 320, tags := ["one-pan", "colorful"] } ]

/-- The `weekend_breakfast` recipe group. -/
def weekend_breakfast : List Recipe :=
  [ { title := "Buttermilk Pancakes with Turkey Sausage"
      main_ingredients := ["flour", "buttermilk", "turkey sausage"]
      all_ingredients := ["flour", "buttermilk", "eggs", "butter", "turkey sausage", "syrup"]
      time := 25, calories := 480, tags := ["comfort", "weekend-special"] }
  , { title := "Chicken and Waffles (Light)"
      main_ingredients := ["chicken tenders", "waffle mix"]
      all_ingredients := ["chicken tenderloins", "waffle mix", "honey", "hot sauce"]
      time := 40, calories := 520, tags := ["soul-food", "special"] }
  , { title := "Southern Breakfast Hash"
      main_ingredients := ["potatoes", "turkey sausage", "eggs"]
      all_ingredients := ["diced potatoes", "turkey sausage", "eggs", "bell peppers", "onions"]
      time := 30, calories := 450, tags := ["hearty", "one-pan"] } ]

/-- The `weekend_dinner` recipe group. -/
def weekend_dinner : List Recipe :=
  [ { title := "Southern Fried Chicken with Mac and Cheese"
      main_ingredients := ["chicken pieces", "pasta", "cheese"]
      all_ingredients := ["chicken pieces", "flour", "buttermilk", "elbow pasta", "cheddar cheese"]
      time := 60, calories := 720, tags := ["soul-food", "comfort"] }
  , { title := "BBQ Ribs with Collard Greens"
      main_ingredients := ["pork ribs", "collard greens"]
      all_ingredients := ["pork ribs", "bbq sauce", "collard greens", "smoked turkey", "onions"]
      time := 180, calories := 650, tags := ["soul-food", "slow-cooked"] }
  , { title := "Shrimp and Grits"
      main_ingredients := ["shrimp", "grits", "bacon"]
      all_ingredients := ["shrimp", "stone-ground grits", "bacon", "bell peppers", "onions"]
      time := 35, calories := 460, tags := ["lowcountry", "seafood"] } ]

/-- The group-selection branching at the top of
`SmartMealRotator.get_smart_recommendations` (weekend lunch falls back to
the weekday lunch group; any other meal string falls to the final branch). -/
def select_recipe_group (meal_type day_type : String) : List Recipe :=
  if day_type = "weekend" then
    if meal_type = "breakfast" then weekend_breakfast
    else if meal_type = "dinner" then weekend_dinner
    else weekday_lunch
  else
    if meal_type = "breakfast" then weekday_breakfast
    else if meal_type = "lunch" then weekday_lunch
    else weekday_dinner

/-- The first (strict) filtering pass of `get_smart_recommendations`:
no disliked ingredient, not banned, not served within the last 2 weeks. -/
def passes_strict (fam : FamilyState) (r : Recipe) : Bool :=
  !recipe_contains_dislikes fam.preferences r &&
  !recipe_is_banned fam.preferences r &&
  !was_served_recently fam r 2

/-- The second (looser) backfill pass of `get_smart_recommendations`: rescan
the original group with a 1-week recency window, appending recipes not yet
collected. -/
def backfill (fam : FamilyState) (recipes filtered : List Recipe) : List Recipe :=
  recipes.foldl
    (fun acc r =>
      if (!recipe_contains_dislikes fam.preferences r &&
          !recipe_is_banned fam.preferences r &&
          !was_served_recently fam r 1) = true ∧ r ∉ acc
      then acc ++ [r] else acc)
    filtered

/-- The `filtered_recipes` pool of `get_smart_recommendations` after both
filtering passes (the backfill runs only when the strict pass left fewer
than `count` recipes). -/
def filtered_pool (fam : FamilyState) (meal_type day_type : String) (count : ℕ) : List Recipe :=
  let recipes := select_recipe_group meal_type day_type
  let filtered := recipes.filter (passes_strict fam)
  if filtered.length < count then backfill fam recipes filtered else filtered

/-- `SmartMealRotator.get_smart_recommendations`.  The two `random.shuffle`
calls are modelled by explicit reordering functions `shF` (favorites) and
`shN` (non-favorites); theorems assume only that they permute their input.
The build loop is the source's: seed with the first `max 1 (count / 3)`
shuffled favorites, then append non-favorites while the result is shorter
than `count`, skipping duplicates, and finally truncate to `count`. -/
def get_smart_recommendations (shF shN : List Recipe → List Recipe)
    (fam : FamilyState) (meal_type day_type : String) (count : ℕ) : List Recipe :=
  let filtered_recipes := filtered_pool fam meal_type day_type count
  let favorites := shF (filtered_recipes.filter
    (fun r => decide (r.title ∈ fam.preferences.family_favorites)))
  let non_favorites := shN (filtered_recipes.filter
    (fun r => decide (r.title ∉ fam.preferences.family_favorites)))
  let result := favorites.take (max 1 (count / 3))
  let result := non_favorites.foldl
    (fun res r => if count ≤ res.length then res
                  else if r ∈ res then res else res ++ [r])
    result
  result.take count

/-! ### `SaleBasedRecommendationEngine` -/

/-- Protein keywords of `get_sale_ingredient_matches`. -/
def protein_keywords : List String :=
  ["chicken", "turkey", "salmon", "ground turkey", "beef", "pork", "fish"]

/-- Vegetable keywords of `get_sale_ingredient_matches`. -/
def vegetable_keywords : List String :=
  ["broccoli", "spinach", "bell pepper", "sweet potato", "asparagus", "green beans"]

/-- Pantry keywords of `get_sale_ingredient_matches`. -/
def pantry_keywords : List String :=
  ["rice", "quinoa", "pasta", "beans", "cheese"]

/-- `SaleBasedRecommendationEngine._extract_protein_type`. -/
def extract_protein_type (item_name : String) : String :=
  if substr "chicken breast" item_name || substr "chicken" item_name then "chicken breast"
  else if substr "ground turkey" item_name then "ground turkey"
  else if substr "salmon" item_name then "salmon"
  else if substr "turkey" item_name then "turkey"
  else if substr "beef" item_name then "ground beef"
  else if substr "pork" item_name then "pork"
  else "protein"

/-- The ordered `veg_map` of `_extract_vegetable_type` (Python dict
iteration follows insertion order). -/
def veg_map : List (String × String) :=
  [ ("broccoli", "broccoli"), ("spinach", "spinach"), ("bell pepper", "bell pepper")
  , ("sweet potato", "sweet potato"), ("asparagus", "asparagus")
  , ("green beans", "green beans"), ("carrots", "carrots"), ("onion", "onion") ]

/-- `SaleBasedRecommendationEngine._extract_vegetable_type`: first matching
`veg_map` entry, falling back to the generic label. -/
def extract_vegetable_type (item_name : String) : String :=
  match veg_map.find? (fun kv => substr kv.1 item_name) with
  | some kv => kv.2
  | none => "vegetables"

/-- `SaleBasedRecommendationEngine._extract_pantry_type`. -/
def extract_pantry_type (item_name : String) : String :=
  if substr "rice" item_name then "rice"
  else if substr "quinoa" item_name then "quinoa"
  else if substr "cheese" item_name then "cheese"
  else if substr "pasta" item_name then "pasta"
  else if substr "beans" item_name then "beans"
  else "pantry item"

/-- One entry of a `sale_matches` bucket: the normalized ingredient name and
the originating sale item. -/
structure SaleMatch where
  ingredient : String
  sale_info : SaleItem
deriving DecidableEq, Repr

/-- The `sale_matches` dict of `get_sale_ingredient_matches`. -/
structure SaleMatches where
  proteins : List SaleMatch
  vegetables : List SaleMatch
  pantry : List SaleMatch
deriving DecidableEq, Repr

/-- The bucket step of `get_sale_ingredient_matches` for one sale item:
lowercase the name, then test the protein, vegetable, and pantry keyword
lists in that priority order; an item matching none is placed in no bucket. -/
def classify_sale_item (acc : SaleMatches) (item : SaleItem) : SaleMatches :=
  let name := py_lower item.name
  if protein_keywords.any (fun k => substr k name) then
    { acc with proteins := acc.proteins ++ [⟨extract_protein_type name, item⟩] }
  else if vegetable_keywords.any (fun k => substr k name) then
    { acc with vegetables := acc.vegetables ++ [⟨extract_vegetable_type name, item⟩] }
  else if pantry_keywords.any (fun k => substr k name) then
    { acc with pantry := acc.pantry ++ [⟨extract_pantry_type name, item⟩] }
  else acc

/-- `SaleBasedRecommendationEngine.get_sale_ingredient_matches`. -/
def get_sale_ingredient_matches (sale_items : List SaleItem) : SaleMatches :=
  sale_items.foldl classify_sale_item ⟨[], [], []⟩

/-- One entry of a scored recipe's `sale_benefits` list. -/
structure SaleBenefit where
  type : String
  ingredient : String
  savings : ℚ
  discount : ℚ
deriving DecidableEq, Repr

/-- A `recipe.copy()` annotated with `sale_score`, `sale_benefits`, and
`total_sale_savings` by `get_sale_based_recommendations`. -/
structure ScoredRecipe where
  recipe : Recipe
  sale_score : ℕ
  sale_benefits : List SaleBenefit
  total_sale_savings : ℚ
deriving DecidableEq, Repr

/-- Whether a sale-match entry's normalized ingredient occurs (lowercased)
as a substring of one of the recipe's lowercased ingredients — the guard of
each scoring loop in `get_sale_based_recommendations`. -/
def sale_match_hits (recipe_ingredients : List String) (m : SaleMatch) : Bool :=
  recipe_ingredients.any fun ing => substr (py_lower m.ingredient) ing

/-- The benefit records contributed by one bucket of sale matches. -/
def benefits_of (t : String) (ms : List SaleMatch) (recipe_ingredients : List String) :
    List SaleBenefit :=
  (ms.filter (sale_match_hits recipe_ingredients)).map fun m =>
    ⟨t, m.ingredient, m.sale_info.savings, m.sale_info.discount_percentage⟩

/-- The per-recipe scoring body of `get_sale_based_recommendations`: the
source's three loops add 10 to the score and one benefit record per protein
match, 5 per vegetable match, and 3 per pantry match, then record the total
matched savings. -/
def score_recipe_for_sales (sale_matches : SaleMatches) (recipe : Recipe) : ScoredRecipe :=
  let recipe_ingredients := recipe.all_ingredients.map py_lower
  let pb := benefits_of "protein" sale_matches.proteins recipe_ingredients
  let vb := benefits_of "vegetable" sale_matches.vegetables recipe_ingredients
  let nb := benefits_of "pantry" sale_matches.pantry recipe_ingredients
  let sale_benefits := pb ++ vb ++ nb
  { recipe := recipe
    sale_score := 10 * pb.length + 5 * vb.length + 3 * nb.length
    sale_benefits := sale_benefits
    total_sale_savings := (sale_benefits.map (·.savings)).sum }

/-- The descending composite ordering of the final
`scored_recipes.sort(key=lambda x: (x["sale_score"], x["total_sale_savings"]), reverse=True)`:
`a` precedes `b` when `a`'s (score, savings) pair is lexicographically at
least `b`'s.  Python's sort is stable, and a stable sort by a total preorder
is extensionally unique, so Lean's (stable) insertion sort models it. -/
def sale_rank_ge (a b : ScoredRecipe) : Prop :=
  b.sale_score < a.sale_score ∨
    (a.sale_score = b.sale_score ∧ b.total_sale_savings ≤ a.total_sale_savings)

instance : DecidableRel sale_rank_ge := fun a b => by
  unfold sale_rank_ge; infer_instance

instance : IsTotal ScoredRecipe sale_rank_ge :=
  ⟨fun a b => by
    unfold sale_rank_ge
    rcases lt_trichotomy a.sale_score b.sale_score with h | h | h
    · exact Or.inr (Or.inl h)
    · rcases le_total b.total_sale_savings a.total_sale_savings with h2 | h2
      · exact Or.inl (Or.inr ⟨h, h2⟩)
      · exact Or.inr (Or.inr ⟨h.symm, h2⟩)
    · exact Or.inl (Or.inl h)⟩

instance : IsTrans ScoredRecipe sale_rank_ge :=
  ⟨fun a b c hab hbc => by
    unfold sale_rank_ge at *
    rcases hab with h1 | ⟨h1, h1s⟩ <;> rcases hbc with h2 | ⟨h2, h2s⟩
    · exact Or.inl (by omega)
    · exact Or.inl (by omega)
    · exact Or.inl (by omega)
    · exact Or.inr ⟨h1.trans h2, h2s.trans h1s⟩⟩

/-- The scoring/sorting/truncation tail of
`get_sale_based_recommendations`, parametrized by the candidate pool
returned by the rotator. -/
def sale_recommendations_from_pool (sale_items : List SaleItem)
    (all_recipes : List Recipe) (count : ℕ) : List ScoredRecipe :=
  let sale_matches := get_sale_ingredient_matches sale_items
  let scored_recipes := all_recipes.map (score_recipe_for_sales sale_matches)
  (scored_recipes.insertionSort sale_rank_ge).take count

/-- `SaleBasedRecommendationEngine.get_sale_based_recommendations`: pull a
pool of `count * 2` candidates from the rotator, score each against the sale
matches, sort descending by (sale score, total savings), return the top
`count`. -/
def get_sale_based_recommendations (shF shN : List Recipe → List Recipe)
    (fam : FamilyState) (sale_items : List SaleItem)
    (meal_type day_type : String) (count : ℕ) : List ScoredRecipe :=
  sale_recommendations_from_pool sale_items
    (get_smart_recommendations shF shN fam meal_type day_type (count * 2)) count

/-! ### `CalendarIntegrator` -/

/-- A calendar event: the model gives every event an explicit
`duration_hours` (the source's `event.get("duration_hours", 1)` default for
a missing key is outside the shallow embedding of well-formed events). -/
structure Event where
  name : String
  duration_hours : ℚ
deriving DecidableEq, Repr

/-- The meal-style recommendation dict of
`CalendarIntegrator._get_meal_recommendation`. -/
structure MealStyleRecommendation where
  meal_style : String
  prep_style : String
  message : String
  prep_time : String
deriving DecidableEq, Repr

/-- `CalendarIntegrator._get_meal_recommendation` (the `is_busy` argument is
unused by the source and kept for fidelity). -/
def get_meal_recommendation (is_busy : Bool) (busy_hours : ℚ) : MealStyleRecommendation :=
  if busy_hours ≥ 8 then
    { meal_style := "late_night_ready"
      prep_style := "slow_cooker_or_instant_pot"
      message := "Very busy day - use slow cooker or Instant Pot"
      prep_time := "Set up in morning (10 min max)" }
  else if busy_hours ≥ 6 then
    { meal_style := "quick_and_easy"
      prep_style := "minimal_prep"
      message := "Busy day - keep meals simple and quick"
      prep_time := "20 minutes or less" }
  else if busy_hours ≥ 4 then
    { meal_style := "normal_with_prep"
      prep_style := "some_prep_ok"
      message := "Moderate schedule - normal meals with some prep OK"
      prep_time := "30-45 minutes OK" }
  else
    { meal_style := "any_style"
      prep_style := "full_cooking_ok"
      message := "Light schedule - perfect day for cooking projects!"
      prep_time := "Any cooking time fine" }

/-- State of a `CalendarIntegrator`: the mock event map (an ordered
association list keyed by date string; `busy_day_threshold` is the constant
6). -/
structure CalendarState where
  calendar_events : List (String × List Event)
deriving DecidableEq, Repr

/-- `self.calendar_events.get(date_str, [])`. -/
def events_on (cal : CalendarState) (date_str : String) : List Event :=
  match cal.calendar_events.find? (fun kv => kv.1 = date_str) with
  | some kv => kv.2
  | none => []

/-- The record returned by `CalendarIntegrator.is_busy_day`. -/
structure DayAnalysis where
  is_busy : Bool
  total_hours : ℚ
  event_count : ℕ
  events : List Event
  recommendation : MealStyleRecommendation
deriving DecidableEq, Repr

/-- `CalendarIntegrator.is_busy_day`: busy iff total event hours reach the
threshold 6 or the event count reaches 4. -/
def is_busy_day (cal : CalendarState) (date_str : String) : DayAnalysis :=
  let events := events_on cal date_str
  let total_busy_hours := (events.map (·.duration_hours)).sum
  let event_count := events.length
  let is_busy := total_busy_hours ≥ 6 ∨ event_count ≥ 4
  { is_busy := decide is_busy
    total_hours := total_busy_hours
    event_count := event_count
    events := events
    recommendation := get_meal_recommendation (decide is_busy) total_busy_hours }

/-- One day-entry of the weekly meal plan, restricted to the fields
`analyze_weekly_schedule` reads (`date`, `day_name`). -/
structure PlanDay where
  date : String
  day_name : String
deriving DecidableEq, Repr

/-- A day summary appended to `busy_days` / `light_days`. -/
structure DaySummary where
  day : String
  date : String
  busy_hours : ℚ
  recommendation : MealStyleRecommendation
deriving DecidableEq, Repr

/-- The `weekly_recommendations` dict of
`CalendarIntegrator._generate_weekly_recommendations`. -/
structure WeeklyRecommendations where
  meal_prep_strategy : String
  shopping_strategy : String
  cooking_strategy : String
  specific_suggestions : List String
deriving DecidableEq, Repr

/-- The `weekly_analysis` accumulator/result of
`CalendarIntegrator.analyze_weekly_schedule`. -/
structure WeeklyAnalysis where
  busy_days : List DaySummary
  light_days : List DaySummary
  best_prep_days : List String
  late_night_needed : List String
  cooking_project_days : List String
  weekly_recommendations : WeeklyRecommendations
deriving DecidableEq, Repr

/-- `CalendarIntegrator._generate_weekly_recommendations`. -/
def generate_weekly_recommendations (analysis : WeeklyAnalysis) : WeeklyRecommendations :=
  let busy_day_count := analysis.busy_days.length
  let r0 : WeeklyRecommendations :=
    if busy_day_count ≥ 4 then
      { meal_prep_strategy := "Heavy prep recommended - prep 3-4 meals on Sunday"
        shopping_strategy := ""
        cooking_strategy := ""
        specific_suggestions :=
          ["Sunday: 2-3 hours of meal prep", "Focus on slow cooker and one-pot meals"] }
    else if busy_day_count ≥ 2 then
      { meal_prep_strategy := "Moderate prep - focus on proteins and grains"
        shopping_strategy := ""
        cooking_strategy := ""
        specific_suggestions := ["Sunday: 1-2 hours protein and grain prep"] }
    else
      { meal_prep_strategy := "Minimal prep needed - cook fresh most days"
        shopping_strategy := ""
        cooking_strategy := ""
        specific_suggestions := ["Light prep - just wash and chop vegetables"] }
  let r1 :=
    if analysis.late_night_needed ≠ [] then
      { r0 with
          shopping_strategy := "Buy slow cooker/Instant Pot ingredients"
          specific_suggestions := r0.specific_suggestions ++
            ["Late night meals needed: " ++ String.intercalate ", " analysis.late_night_needed] }
    else r0
  if analysis.cooking_project_days ≠ [] then
    { r1 with
        cooking_strategy := "Perfect days for cooking projects: " ++
          String.intercalate ", " analysis.cooking_project_days
        specific_suggestions := r1.specific_suggestions ++
          ["Try new recipes or make-ahead meals on light days"] }
  else r1

/-- The per-day classification step of `analyze_weekly_schedule`: busy days
go to `busy_days` (and to `late_night_needed` at ≥ 8 hours); light days go
to `light_days`, and then either to `best_prep_days` (Saturday/Sunday) or —
only otherwise (`elif`) — to `cooking_project_days` when under 2 hours. -/
def classify_plan_day (cal : CalendarState) (acc : WeeklyAnalysis) (d : PlanDay) :
    WeeklyAnalysis :=
  let a := is_busy_day cal d.date
  if a.is_busy then
    let acc := { acc with busy_days := acc.busy_days ++
      [⟨d.day_name, d.date, a.total_hours, a.recommendation⟩] }
    if a.total_hours ≥ 8 then
      { acc with late_night_needed := acc.late_night_needed ++ [d.day_name] }
    else acc
  else
    let acc := { acc with light_days := acc.light_days ++
      [⟨d.day_name, d.date, a.total_hours, a.recommendation⟩] }
    if d.day_name ∈ ["Sunday", "Saturday"] then
      { acc with best_prep_days := acc.best_prep_days ++ [d.day_name] }
    else if a.total_hours < 2 then
      { acc with cooking_project_days := acc.cooking_project_days ++ [d.day_name] }
    else acc

/-- `CalendarIntegrator.analyze_weekly_schedule`: classify each plan day in
order, then attach the weekly recommendations. -/
def analyze_weekly_schedule (cal : CalendarState) (week_meal_plan : List PlanDay) :
    WeeklyAnalysis :=
  let base := week_meal_plan.foldl (classify_plan_day cal)
    ⟨[], [], [], [], [], ⟨"", "", "", []⟩⟩
  { base with weekly_recommendations := generate_weekly_recommendations base }

/-! ## Theorems -/

/-- C4: for every discount percentage, `get_recommendation` maps `d ≥ 25` to
the buy-now-and-stock-up action with high confidence, `15 ≤ d < 25` to
buy-for-this-week with medium confidence, `8 ≤ d < 15` to consider-if-needed
with medium confidence, and `d < 8` to wait-for-better-deal with low
confidence; the thresholds are inclusive lower bounds evaluated
highest-first. -/
theorem c4_purchase_timing_thresholds (item_name : String) (d : ℚ) :
    (25 ≤ d → (get_recommendation item_name d).action = "🛒 Buy Now & Stock Up" ∧
      (get_recommendation item_name d).confidence = "High") ∧
    (15 ≤ d ∧ d < 25 → (get_recommendation item_name d).action = "🛒 Buy for This Week" ∧
      (get_recommendation item_name d).confidence = "Medium") ∧
    (8 ≤ d ∧ d < 15 → (get_recommendation item_name d).action = "🤔 Consider If Needed" ∧
      (get_recommendation item_name d).confidence = "Medium") ∧
    (d < 8 → (get_recommendation item_name d).action = "⏰ Wait for Better Deal" ∧
      (get_recommendation item_name d).confidence = "Low") := by
  unfold get_recommendation buy_thresholds
  norm_num
  refine ⟨fun h => ?_, fun h1 h2 => ?_, fun h1 h2 => ?_, fun h => ?_⟩
  · rw [if_pos h]; exact ⟨rfl, rfl⟩
  · rw [if_neg (by linarith), if_pos h1]; exact ⟨rfl, rfl⟩
  · rw [if_neg (by linarith), if_neg (by linarith), if_pos h1]; exact ⟨rfl, rfl⟩
  · rw [if_neg (by linarith), if_neg (by linarith), if_neg (by linarith)]; exact ⟨rfl, rfl⟩

/-- Witness for C4 at the concrete discounts 25.0, 24.9, 8.0, 7.9 named by
the claim. -/
theorem c4_purchase_timing_thresholds_witness :
    (get_recommendation "Chicken Breast" 25).action = "🛒 Buy Now & Stock Up" ∧
    (get_recommendation "Chicken Breast" (249/10)).action = "🛒 Buy for This Week" ∧
    (get_recommendation "Chicken Breast" 8).action = "🤔 Consider If Needed" ∧
    (get_recommendation "Chicken Breast" (79/10)).action = "⏰ Wait for Better Deal" :=
  ⟨((c4_purchase_timing_thresholds "Chicken Breast" 25).1 (by norm_num)).1,
   ((c4_purchase_timing_thresholds "Chicken Breast" (249/10)).2.1 (by norm_num)).1,
   ((c4_purchase_timing_thresholds "Chicken Breast" 8).2.2.1 (by norm_num)).1,
   ((c4_purchase_timing_thresholds "Chicken Breast" (79/10)).2.2.2 (by norm_num)).1⟩

/-- C9: `analyze_weekly_savings` on the empty sale-item list returns total
savings 0, high-value count 0, average discount 0 (no division is
performed), and the light-sales-week strategy message. -/
theorem c9_empty_sales_analysis :
    analyze_weekly_savings [] =
      { total_possible_savings := 0
        high_value_count := 0
        average_discount := 0
        recommendation := "Light sales week. Good time to use up what you have at home." } := by
  rfl

/-- Induction invariant for C2: both ingredient lists are duplicate-free and
no ingredient appears in both. -/
def prefs_invariant (fam : FamilyState) : Prop :=
  fam.preferences.disliked_ingredients.Nodup ∧
  fam.preferences.loved_ingredients.Nodup ∧
  ∀ x, x ∈ fam.preferences.disliked_ingredients →
    x ∉ fam.preferences.loved_ingredients

theorem prefs_invariant_add_dislike (fam : FamilyState) (i : String)
    (h : prefs_invariant fam) : prefs_invariant (add_dislike fam i) := by
  obtain ⟨hd, hl, hdisj⟩ := h
  unfold add_dislike
  by_cases hmem : py_strip (py_lower i) ∈ fam.preferences.disliked_ingredients
  · rw [if_neg (by simpa using hmem)]; exact ⟨hd, hl, hdisj⟩
  · rw [if_pos hmem]
    refine ⟨?_, ?_, ?_⟩
    · exact hd.append (List.nodup_singleton _)
        (fun x hx hx' => hmem (by simpa using (List.mem_singleton.mp hx') ▸ hx))
    · dsimp only
      split
      · exact hl.erase _
      · exact hl
    · intro x hx
      dsimp only at hx ⊢
      rcases List.mem_append.mp hx with hx | hx
      · have hxl := hdisj x hx
        split
        · exact fun hc => hxl ((List.erase_sublist _ _).subset hc)
        · exact hxl
      · have hxi : x = py_strip (py_lower i) := List.mem_singleton.mp hx
        subst hxi
        split
        · intro hc
          exact ((hl.mem_erase_iff.mp hc).1 rfl)
        · next hni => exact hni

theorem prefs_invariant_add_love (fam : FamilyState) (i : String)
    (h : prefs_invariant fam) : prefs_invariant (add_love fam i) := by
  obtain ⟨hd, hl, hdisj⟩ := h
  unfold add_love
  by_cases hmem : py_strip (py_lower i) ∈ fam.preferences.loved_ingredients
  · rw [if_neg (by simpa using hmem)]; exact ⟨hd, hl, hdisj⟩
  · rw [if_pos hmem]
    refine ⟨?_, ?_, ?_⟩
    · dsimp only
      split
      · exact hd.erase _
      · exact hd
    · exact hl.append (List.nodup_singleton _)
        (fun x hx hx' => hmem (by simpa using (List.mem_singleton.mp hx') ▸ hx))
    · intro x hx
      dsimp only at hx ⊢
      intro hc
      rcases List.mem_append.mp hc with hc | hc
      · have hxl := hdisj x ?_ hc
        · exact hxl
        · revert hx
          split
          · intro hx
            exact (List.erase_sublist _ _).subset hx
          · exact id
      · have hxi : x = py_strip (py_lower i) := List.mem_singleton.mp hc
        subst hxi
        revert hx
        split
        · intro hx
          exact ((hd.mem_erase_iff.mp hx).1 rfl)
        · next hni => exact hni

theorem prefs_invariant_apply_ops (ops : List PrefOp) (fam : FamilyState)
    (h : prefs_invariant fam) : prefs_invariant (apply_pref_ops fam ops) := by
  induction ops generalizing fam with
  | nil => exact h
  | cons o rest ih =>
      have hstep : prefs_invariant (apply_pref_op fam o) := by
        cases o with
        | dislike i => exact prefs_invariant_add_dislike fam i h
        | love i => exact prefs_invariant_add_love fam i h
      simpa [apply_pref_ops] using ih (apply_pref_op fam o) hstep

/-- C2: starting from the initial empty preference state, after any sequence
of `add_dislike` / `add_love` calls no ingredient is simultaneously in the
disliked list and the loved list. -/
theorem c2_dislike_love_mutual_exclusion (ops : List PrefOp) (x : String) :
    ¬(x ∈ (apply_pref_ops initial_family_state ops).preferences.disliked_ingredients ∧
      x ∈ (apply_pref_ops initial_family_state ops).preferences.loved_ingredients) := by
  have h := prefs_invariant_apply_ops ops initial_family_state
    ⟨List.nodup_nil, List.nodup_nil, fun x hx => absurd hx (List.not_mem_nil x)⟩
  rintro ⟨h1, h2⟩
  exact h.2.2 x h1 h2

/-- Witness for C2: loving "Eggs" then disliking "eggs" leaves "eggs" out of
at least one of the two lists. -/
theorem c2_dislike_love_mutual_exclusion_witness :
    ¬("eggs" ∈ (apply_pref_ops initial_family_state
        [.love "Eggs", .dislike "eggs"]).preferences.disliked_ingredients ∧
      "eggs" ∈ (apply_pref_ops initial_family_state
        [.love "Eggs", .dislike "eggs"]).preferences.loved_ingredients) :=
  c2_dislike_love_mutual_exclusion [.love "Eggs", .dislike "eggs"] "eggs"

theorem takeLast_length {α : Type} (l : List α) (k : ℕ) :
    (takeLast l k).length = min l.length k := by
  simp [takeLast]
  omega

theorem takeLast_of_length_le {α : Type} (l : List α) (k : ℕ) (h : l.length ≤ k) :
    takeLast l k = l := by
  unfold takeLast
  rw [Nat.sub_eq_zero_of_le h, List.drop_zero]

theorem takeLast_takeLast_append {α : Type} (l m : List α) (k : ℕ)
    (hk : k ≤ l.length) :
    takeLast (takeLast l k ++ m) k = takeLast (l ++ m) k := by
  have hj : l.length - k ≤ l.length := Nat.sub_le _ _
  unfold takeLast
  rw [← List.drop_append_of_le_length hj, List.drop_drop]
  congr 1
  simp
  omega

/-- After one `log_meal` the history stays within the 28-entry cap. -/
theorem log_meal_length_le (fam : FamilyState) (t d : String)
    (h : fam.last_4_weeks.length ≤ 28) :
    (log_meal fam t d).last_4_weeks.length ≤ 28 := by
  unfold log_meal
  dsimp only
  split
  · rw [takeLast_length]; omega
  · next hle => simp at hle ⊢; omega

/-- The history after replaying `log_meal` calls is exactly the last 28
entries of the starting history extended by all logged entries. -/
theorem log_meals_eq_takeLast (calls : List (String × String)) (fam : FamilyState)
    (h : fam.last_4_weeks.length ≤ 28) :
    (log_meals fam calls).last_4_weeks =
      takeLast (fam.last_4_weeks ++ calls.map fun c => (⟨c.1, c.2⟩ : MealEntry)) 28 := by
  induction calls generalizing fam with
  | nil =>
      simp [log_meals]
      exact (takeLast_of_length_le _ _ h).symm
  | cons c cs ih =>
      have hstep : (log_meal fam c.1 c.2).last_4_weeks.length ≤ 28 :=
        log_meal_length_le fam c.1 c.2 h
      have hrec := ih (log_meal fam c.1 c.2) hstep
      have hml : log_meals fam (c :: cs) = log_meals (log_meal fam c.1 c.2) cs := by
        simp [log_meals]
      rw [hml, hrec]
      unfold log_meal
      dsimp only
      split
      · next hgt =>
          rw [takeLast_takeLast_append _ _ _ (by simp at hgt ⊢; omega)]
          simp
      · simp

/-- C7: starting from the empty history, after any sequence of `log_meal`
calls the history holds at most 28 entries, and its contents are exactly
the most recent 28 logged (title, date) pairs in logging order (FIFO
eviction of the oldest). -/
theorem c7_meal_history_cap (calls : List (String × String)) :
    (log_meals initial_family_state calls).last_4_weeks.length ≤ 28 ∧
    (log_meals initial_family_state calls).last_4_weeks =
      takeLast (calls.map fun c => (⟨c.1, c.2⟩ : MealEntry)) 28 := by
  have h := log_meals_eq_takeLast calls initial_family_state (by simp [initial_family_state])
  constructor
  · rw [h, takeLast_length]; omega
  · simpa [initial_family_state] using h

/-- Case-insensitive substring containment as the spec sentence for C8 reads
for arbitrary (non-normalized) disliked strings: lowercase both sides and
test containment. -/
def ci_contains (haystack needle : String) : Prop :=
  (py_lower needle).data <:+: (py_lower haystack).data

/-- C8 counterexample: the ingredient "Eggs" case-insensitively contains the
disliked entry "Egg", yet `recipe_contains_dislikes` returns `false` — the
source lowercases only the recipe ingredient, never the disliked entry, so
the claim fails for disliked strings that are not already lowercase. -/
theorem c8_counterexample :
    ci_contains "Eggs" "Egg" ∧
    recipe_contains_dislikes
      { disliked_ingredients := ["Egg"]
        loved_ingredients := []
        neutral_ingredients := []
        never_suggest_again := []
        family_favorites := []
        dietary_restrictions := []
        spice_tolerance := "medium"
        texture_preferences := ⟨true, true, true, true⟩ }
      { title := "Scrambled Eggs"
        main_ingredients := ["Eggs"]
        all_ingredients := ["Eggs"]
        time := 5, calories := 150, tags := [] } = false := by
  constructor
  · exact ⟨[], ['s'], by decide⟩
  · decide

/-- C8 amended: `recipe_contains_dislikes` returns `true` whenever some
recipe ingredient, lowercased, contains a disliked entry verbatim as a
substring — for entries already lowercase (as produced by `add_dislike`'s
normalization) this coincides with case-insensitive containment, but it
fails for disliked entries containing uppercase letters. -/
theorem c8_amended_dislike_detection (p : Preferences) (recipe : Recipe)
    (h : ∃ d ∈ p.disliked_ingredients, ∃ ing ∈ recipe.all_ingredients,
      d.data <:+: (py_lower ing).data) :
    recipe_contains_dislikes p recipe = true := by
  obtain ⟨d, hd, ing, hing, hsub⟩ := h
  unfold recipe_contains_dislikes
  simp only [List.any_eq_true]
  exact ⟨d, hd, py_lower ing, List.mem_map.mpr ⟨ing, hing, rfl⟩,
    by simp [substr, hsub]⟩

/-- Witness for the amended C8 at a concrete preference state and recipe. -/
theorem c8_amended_dislike_detection_witness :
    recipe_contains_dislikes
      { disliked_ingredients := ["egg"]
        loved_ingredients := []
        neutral_ingredients := []
        never_suggest_again := []
        family_favorites := []
        dietary_restrictions := []
        spice_tolerance := "medium"
        texture_preferences := ⟨true, true, true, true⟩ }
      { title := "Scrambled Eggs"
        main_ingredients := ["Eggs"]
        all_ingredients := ["Eggs"]
        time := 5, calories := 150, tags := [] } = true :=
  c8_amended_dislike_detection _ _ (by decide)

/-- For C10: no bucket of the accumulator holds an entry originating from
sale item `i`. -/
def no_entry_for (i : SaleItem) (acc : SaleMatches) : Prop :=
  (∀ m ∈ acc.proteins, m.sale_info ≠ i) ∧
  (∀ m ∈ acc.vegetables, m.sale_info ≠ i) ∧
  (∀ m ∈ acc.pantry, m.sale_info ≠ i)

theorem classify_sale_item_no_entry (i : SaleItem)
    (hp : protein_keywords.any (fun k => substr k (py_lower i.name)) = false)
    (hv : vegetable_keywords.any (fun k => substr k (py_lower i.name)) = false)
    (hq : pantry_keywords.any (fun k => substr k (py_lower i.name)) = false)
    (acc : SaleMatches) (item : SaleItem) (h : no_entry_for i acc) :
    no_entry_for i (classify_sale_item acc item) := by
  obtain ⟨h1, h2, h3⟩ := h
  unfold classify_sale_item
  dsimp only
  split
  · next hm =>
      refine ⟨?_, h2, h3⟩
      intro m hm'
      rcases List.mem_append.mp hm' with hm' | hm'
      · exact h1 m hm'
      · rw [List.mem_singleton.mp hm']
        dsimp only
        intro hc
        rw [hc] at hm
        rw [hm] at hp
        exact Bool.noConfusion hp
  · split
    · next hm =>
        refine ⟨h1, ?_, h3⟩
        intro m hm'
        rcases List.mem_append.mp hm' with hm' | hm'
        · exact h2 m hm'
        · rw [List.mem_singleton.mp hm']
          dsimp only
          intro hc
          rw [hc] at hm
          rw [hm] at hv
          exact Bool.noConfusion hv
    · split
      · next hm =>
          refine ⟨h1, h2, ?_⟩
          intro m hm'
          rcases List.mem_append.mp hm' with hm' | hm'
          · exact h3 m hm'
          · rw [List.mem_singleton.mp hm']
            dsimp only
            intro hc
            rw [hc] at hm
            rw [hm] at hq
            exact Bool.noConfusion hq
      · exact ⟨h1, h2, h3⟩

theorem classify_fold_no_entry (i : SaleItem)
    (hp : protein_keywords.any (fun k => substr k (py_lower i.name)) = false)
    (hv : vegetable_keywords.any (fun k => substr k (py_lower i.name)) = false)
    (hq : pantry_keywords.any (fun k => substr k (py_lower i.name)) = false)
    (items : List SaleItem) (acc : SaleMatches) (h : no_entry_for i acc) :
    no_entry_for i (items.foldl classify_sale_item acc) := by
  induction items generalizing acc with
  | nil => exact h
  | cons it rest ih =>
      exact ih (classify_sale_item acc it)
        (classify_sale_item_no_entry i hp hv hq acc it h)

/-- C10: a sale item whose lowercased name contains none of the protein,
vegetable, or pantry keywords is placed in no bucket by
`get_sale_ingredient_matches` — it is silently dropped from classification. -/
theorem c10_unmatched_item_in_no_bucket (sale_items : List SaleItem) (i : SaleItem)
    (h : ((protein_keywords ++ vegetable_keywords ++ pantry_keywords).all
      fun k => !substr k (py_lower i.name)) = true) :
    ((get_sale_ingredient_matches sale_items).proteins.all
      fun m => decide (m.sale_info ≠ i)) = true ∧
    ((get_sale_ingredient_matches sale_items).vegetables.all
      fun m => decide (m.sale_info ≠ i)) = true ∧
    ((get_sale_ingredient_matches sale_items).pantry.all
      fun m => decide (m.sale_info ≠ i)) = true := by
  simp only [List.all_append, Bool.and_eq_true, List.all_eq_true,
    Bool.not_eq_true', decide_eq_true_eq] at h ⊢
  obtain ⟨⟨hp, hv⟩, hq⟩ := h
  have hp' : protein_keywords.any (fun k => substr k (py_lower i.name)) = false := by
    simp only [List.any_eq_false, Bool.not_eq_true]; exact hp
  have hv' : vegetable_keywords.any (fun k => substr k (py_lower i.name)) = false := by
    simp only [List.any_eq_false, Bool.not_eq_true]; exact hv
  have hq' : pantry_keywords.any (fun k => substr k (py_lower i.name)) = false := by
    simp only [List.any_eq_false, Bool.not_eq_true]; exact hq
  have := classify_fold_no_entry i hp' hv' hq' sale_items ⟨[], [], []⟩
    ⟨fun m hm => absurd hm (List.not_mem_nil m),
     fun m hm => absurd hm (List.not_mem_nil m),
     fun m hm => absurd hm (List.not_mem_nil m)⟩
  exact ⟨this.1, this.2.1, this.2.2⟩

/-- Witness for C10: the dairy item "Whole Milk" matches no keyword list and
appears in no bucket. -/
theorem c10_unmatched_item_in_no_bucket_witness :
    ((get_sale_ingredient_matches
        [⟨"Whole Milk", 4, 3, 1, "Dairy", 25⟩]).proteins.all
      fun m => decide (m.sale_info ≠ ⟨"Whole Milk", 4, 3, 1, "Dairy", 25⟩)) = true ∧
    ((get_sale_ingredient_matches
        [⟨"Whole Milk", 4, 3, 1, "Dairy", 25⟩]).vegetables.all
      fun m => decide (m.sale_info ≠ ⟨"Whole Milk", 4, 3, 1, "Dairy", 25⟩)) = true ∧
    ((get_sale_ingredient_matches
        [⟨"Whole Milk", 4, 3, 1, "Dairy", 25⟩]).pantry.all
      fun m => decide (m.sale_info ≠ ⟨"Whole Milk", 4, 3, 1, "Dairy", 25⟩)) = true :=
  c10_unmatched_item_in_no_bucket [⟨"Whole Milk", 4, 3, 1, "Dairy", 25⟩]
    ⟨"Whole Milk", 4, 3, 1, "Dairy", 25⟩ (by decide)

/-- The weekly analysis of a single light Saturday with no calendar events,
used to refute C6. -/
def c6_run : WeeklyAnalysis :=
  analyze_weekly_schedule ⟨[]⟩ [⟨"2026-10-17", "Saturday"⟩]

/-- C6 counterexample: with no calendar events, Saturday is a light day with
0 busy hours (< 2), yet `cooking_project_days` stays empty — the source's
`elif` diverts weekend light days to `best_prep_days`, so light
Saturdays/Sundays never reach `cooking_project_days` as the claim asserts. -/
theorem c6_counterexample :
    c6_run.light_days.map (fun d => d.day) = ["Saturday"] ∧
    c6_run.light_days.map (fun d => d.busy_hours) = [0] ∧
    c6_run.best_prep_days = ["Saturday"] ∧
    c6_run.cooking_project_days = [] := by
  decide

theorem classify_fold_cooking_mono (cal : CalendarState) (plan : List PlanDay)
    (acc : WeeklyAnalysis) (x : String) (h : x ∈ acc.cooking_project_days) :
    x ∈ (plan.foldl (classify_plan_day cal) acc).cooking_project_days := by
  induction plan generalizing acc with
  | nil => exact h
  | cons d rest ih =>
      refine ih (classify_plan_day cal acc d) ?_
      unfold classify_plan_day
      dsimp only
      split
      · split
        · exact h
        · exact h
      · split
        · exact h
        · split
          · exact List.mem_append_left _ h
          · exact h

/-- C6 amended: every day classified as light whose total busy hours are
strictly less than 2 **and whose day name is neither Saturday nor Sunday**
appears in `cooking_project_days`; light Saturdays/Sundays are instead
routed to `best_prep_days` by the `elif`. -/
theorem c6_amended_cooking_project_days (cal : CalendarState)
    (week_meal_plan : List PlanDay) (d : PlanDay)
    (hmem : d ∈ week_meal_plan)
    (hlight : (is_busy_day cal d.date).is_busy = false)
    (hhours : (is_busy_day cal d.date).total_hours < 2)
    (hname : d.day_name ∉ (["Sunday", "Saturday"] : List String)) :
    d.day_name ∈ (analyze_weekly_schedule cal week_meal_plan).cooking_project_days := by
  obtain ⟨s, t, rfl⟩ := List.append_of_mem hmem
  unfold analyze_weekly_schedule
  dsimp only
  rw [List.foldl_append, List.foldl_cons]
  apply classify_fold_cooking_mono
  unfold classify_plan_day
  dsimp only
  rw [if_neg (by rw [hlight]; exact Bool.noConfusion)]
  rw [if_neg hname, if_pos hhours]
  exact List.mem_append_right _ (List.mem_singleton.mpr rfl)

/-- Witness for the amended C6: an event-free Monday reaches
`cooking_project_days`. -/
theorem c6_amended_cooking_project_days_witness :
    "Monday" ∈ (analyze_weekly_schedule ⟨[]⟩
      [⟨"2026-10-12", "Monday"⟩]).cooking_project_days :=
  c6_amended_cooking_project_days ⟨[]⟩ [⟨"2026-10-12", "Monday"⟩]
    ⟨"2026-10-12", "Monday"⟩ (by decide) (by decide) (by decide) (by decide)

/-- Sale item for the C3 concrete ordering example: a protein on sale with
$5 savings. -/
def c3_protein_sale : SaleItem :=
  ⟨"Chicken Breast Family Pack", 10, 5, 5, "Chicken", 50⟩

/-- Sale item for the C3 concrete ordering example: a vegetable on sale with
$5 savings. -/
def c3_vegetable_sale : SaleItem :=
  ⟨"Fresh Broccoli Crowns", 10, 5, 5, "Broccoli", 50⟩

/-- Candidate recipe matching only the protein sale. -/
def c3_protein_recipe : Recipe :=
  ⟨"Chicken Dinner", ["chicken breast"], ["chicken breast"], 20, 300, []⟩

/-- Candidate recipe matching only the vegetable sale. -/
def c3_vegetable_recipe : Recipe :=
  ⟨"Broccoli Bowl", ["broccoli"], ["broccoli"], 20, 300, []⟩

/-- C3: for every sale-item list and candidate pool, the sale-based
recommendation list is the `count`-prefix of an ordering of the scored pool
that is sorted descending lexicographically by (sale score, total matched
savings); every returned entry is the scored copy of a pool recipe whose
sale score is 10 per matched protein entry plus 5 per matched vegetable
entry plus 3 per matched pantry entry; and in particular a recipe matching
one protein on sale (savings $5) ranks above one matching only a vegetable
(savings $5). -/
theorem c3_sale_scoring_and_ranking :
    (∀ (sale_items : List SaleItem) (pool : List Recipe) (count : ℕ),
      ∃ rest : List ScoredRecipe,
        (sale_recommendations_from_pool sale_items pool count ++ rest).Perm
          (pool.map (score_recipe_for_sales (get_sale_ingredient_matches sale_items))) ∧
        List.Pairwise sale_rank_ge
          (sale_recommendations_from_pool sale_items pool count ++ rest) ∧
        ∀ s ∈ sale_recommendations_from_pool sale_items pool count,
          ∃ r ∈ pool,
            s = score_recipe_for_sales (get_sale_ingredient_matches sale_items) r ∧
            s.sale_score =
              10 * (get_sale_ingredient_matches sale_items).proteins.countP
                    (sale_match_hits (r.all_ingredients.map py_lower)) +
              5 * (get_sale_ingredient_matches sale_items).vegetables.countP
                    (sale_match_hits (r.all_ingredients.map py_lower)) +
              3 * (get_sale_ingredient_matches sale_items).pantry.countP
                    (sale_match_hits (r.all_ingredients.map py_lower))) ∧
    (sale_recommendations_from_pool [c3_protein_sale, c3_vegetable_sale]
        [c3_vegetable_recipe, c3_protein_recipe] 2).map (fun s => s.recipe.title) =
      ["Chicken Dinner", "Broccoli Bowl"] := by
  constructor
  · intro sale_items pool count
    refine ⟨(List.insertionSort sale_rank_ge
        (pool.map (score_recipe_for_sales
          (get_sale_ingredient_matches sale_items)))).drop count, ?_, ?_, ?_⟩
    · unfold sale_recommendations_from_pool
      dsimp only
      rw [List.take_append_drop]
      exact List.perm_insertionSort _ _
    · unfold sale_recommendations_from_pool
      dsimp only
      rw [List.take_append_drop]
      exact List.sorted_insertionSort sale_rank_ge _
    · intro s hs
      unfold sale_recommendations_from_pool at hs
      dsimp only at hs
      have hs2 : s ∈ List.insertionSort sale_rank_ge
          (pool.map (score_recipe_for_sales (get_sale_ingredient_matches sale_items))) :=
        List.mem_of_mem_take hs
      have hs3 := (List.perm_insertionSort sale_rank_ge _).mem_iff.mp hs2
      obtain ⟨r, hr, heq⟩ := List.mem_map.mp hs3
      refine ⟨r, hr, heq.symm, ?_⟩
      rw [← heq]
      simp [score_recipe_for_sales, benefits_of, List.countP_eq_length_filter]
  · decide

/-- Witness for C3: a concrete run (the top-count prefix, its sorted
descending order, and the protein-over-vegetable ranking at equal savings)
obtained by applying the main theorem and evaluating. -/
theorem c3_sale_scoring_and_ranking_witness :
    (sale_recommendations_from_pool [c3_protein_sale, c3_vegetable_sale]
        [c3_vegetable_recipe, c3_protein_recipe] 2).map (fun s => s.recipe.title) =
      ["Chicken Dinner", "Broccoli Bowl"] :=
  c3_sale_scoring_and_ranking.2

/-- Elements produced by the result-building loop of
`get_smart_recommendations` come from the seed or from the candidate list. -/
theorem build_fold_mem (count : ℕ) (l res : List Recipe) (x : Recipe)
    (h : x ∈ l.foldl (fun res r => if count ≤ res.length then res
        else if r ∈ res then res else res ++ [r]) res) :
    x ∈ res ∨ x ∈ l := by
  induction l generalizing res with
  | nil => exact Or.inl h
  | cons r rest ih =>
      rw [List.foldl_cons] at h
      rcases ih _ h with h' | h'
      · split at h'
        · exact Or.inl h'
        · split at h'
          · exact Or.inl h'
          · rcases List.mem_append.mp h' with h'' | h''
            · exact Or.inl h''
            · exact Or.inr (List.mem_cons.mpr (Or.inl (List.mem_singleton.mp h'')))
      · exact Or.inr (List.mem_cons_of_mem r h')

/-- C1: `get_smart_recommendations` never returns more than `count` recipes;
and whenever the selected group holds at least `count` recipes passing the
strict filter (no disliked ingredient, not banned, not served in the last 2
weeks), no returned recipe is banned or was served within those 2 weeks —
for every pair of permutation-only shuffle functions. -/
theorem c1_recommendation_count_and_compliance
    (shF shN : List Recipe → List Recipe) (fam : FamilyState)
    (meal_type day_type : String) (count : ℕ)
    (hF : ∀ l, (shF l).Perm l) (hN : ∀ l, (shN l).Perm l) (hc : 1 ≤ count) :
    (get_smart_recommendations shF shN fam meal_type day_type count).length ≤ count ∧
    (count ≤ ((select_recipe_group meal_type day_type).filter
        (passes_strict fam)).length →
      ∀ r ∈ get_smart_recommendations shF shN fam meal_type day_type count,
        recipe_is_banned fam.preferences r = false ∧
        was_served_recently fam r 2 = false) := by
  constructor
  · unfold get_smart_recommendations
    dsimp only
    exact List.length_take_le _ _
  · intro hpool r hr
    have hpool_eq : filtered_pool fam meal_type day_type count =
        (select_recipe_group meal_type day_type).filter (passes_strict fam) := by
      unfold filtered_pool
      dsimp only
      rw [if_neg (by omega)]
    have hr1 := List.mem_of_mem_take hr
    have hr2 := build_fold_mem count _ _ r hr1
    have hrpool : r ∈ (select_recipe_group meal_type day_type).filter
        (passes_strict fam) := by
      rcases hr2 with h | h
      · have h2 := List.mem_of_mem_take h
        have h3 := (hF _).mem_iff.mp h2
        rw [← hpool_eq]
        exact List.mem_of_mem_filter h3
      · have h3 := (hN _).mem_iff.mp h
        rw [← hpool_eq]
        exact List.mem_of_mem_filter h3
    have hp := List.of_mem_filter hrpool
    unfold passes_strict at hp
    simp only [Bool.and_eq_true, Bool.not_eq_true'] at hp
    exact ⟨hp.1.2, hp.2⟩

/-- Witness for C1: identity shuffles, the initial preference state, weekday
dinner, `count = 1`. -/
theorem c1_recommendation_count_and_compliance_witness :
    (get_smart_recommendations id id initial_family_state "dinner" "weekday" 1).length ≤ 1 ∧
    (1 ≤ ((select_recipe_group "dinner" "weekday").filter
        (passes_strict initial_family_state)).length →
      ∀ r ∈ get_smart_recommendations id id initial_family_state "dinner" "weekday" 1,
        recipe_is_banned initial_family_state.preferences r = false ∧
        was_served_recently initial_family_state r 2 = false) :=
  c1_recommendation_count_and_compliance id id initial_family_state "dinner" "weekday" 1
    (fun l => List.Perm.refl l) (fun l => List.Perm.refl l) (by decide)

/-- Preference state for the C5 counterexample: every weekday-breakfast
recipe is a family favorite. -/
def c5_all_favorites_fam : FamilyState :=
  { initial_family_state with preferences :=
      { initial_family_state.preferences with
          family_favorites := weekday_breakfast.map (fun r => r.title) } }

/-- C5 counterexample: with all four weekday-breakfast recipes marked as
favorites and `count = 2`, the surviving pool holds 4 ≥ 2 recipes, yet only
1 recipe is returned — favorites beyond the `max 1 (count / 3)` cap are
dropped and there are no non-favorites to fill the remaining slot. -/
theorem c5_counterexample :
    2 ≤ (filtered_pool c5_all_favorites_fam "breakfast" "weekday" 2).length ∧
    (get_smart_recommendations id id c5_all_favorites_fam
      "breakfast" "weekday" 2).length = 1 := by
  decide

/-- Once the result has reached `count` entries the build loop is a no-op. -/
theorem build_fold_of_full (count : ℕ) (l res : List Recipe) (h : count ≤ res.length) :
    l.foldl (fun res r => if count ≤ res.length then res
        else if r ∈ res then res else res ++ [r]) res = res := by
  induction l generalizing res with
  | nil => rfl
  | cons r rest ih =>
      rw [List.foldl_cons, if_pos h]
      exact ih res h

/-- Length of the build loop's result over duplicate-free candidates
disjoint from the seed. -/
theorem build_fold_length (count : ℕ) (l res : List Recipe)
    (hnd : l.Nodup) (hdisj : ∀ x ∈ l, x ∉ res) (hle : res.length ≤ count) :
    (l.foldl (fun res r => if count ≤ res.length then res
        else if r ∈ res then res else res ++ [r]) res).length =
      min count (res.length + l.length) := by
  induction l generalizing res with
  | nil => simp; omega
  | cons r rest ih =>
      rw [List.foldl_cons]
      by_cases hfull : count ≤ res.length
      · rw [if_pos hfull, build_fold_of_full count rest res hfull]
        simp
        omega
      · rw [if_neg hfull, if_neg (hdisj r (List.mem_cons_self r rest))]
        obtain ⟨hr_notin, hnd'⟩ := List.nodup_cons.mp hnd
        have hdisj' : ∀ x ∈ rest, x ∉ res ++ [r] := by
          intro x hx
          simp only [List.mem_append, List.mem_singleton]
          rintro (hx' | rfl)
          · exact hdisj x (List.mem_cons_of_mem r hx) hx'
          · exact hr_notin hx
        have hle' : (res ++ [r]).length ≤ count := by
          simp
          omega
        rw [ih (res ++ [r]) hnd' hdisj' hle']
        simp
        omega

theorem select_recipe_group_nodup (meal_type day_type : String) :
    (select_recipe_group meal_type day_type).Nodup := by
  unfold select_recipe_group
  split_ifs <;> decide

theorem backfill_nodup (fam : FamilyState) (recipes filtered : List Recipe)
    (h : filtered.Nodup) : (backfill fam recipes filtered).Nodup := by
  unfold backfill
  induction recipes generalizing filtered with
  | nil => exact h
  | cons r rest ih =>
      rw [List.foldl_cons]
      apply ih
      split
      · next hcond =>
          refine h.append (List.nodup_singleton r) ?_
          intro x hx hx'
          rw [List.mem_singleton.mp hx'] at hx
          exact hcond.2 hx
      · exact h

theorem filtered_pool_nodup (fam : FamilyState) (meal_type day_type : String)
    (count : ℕ) : (filtered_pool fam meal_type day_type count).Nodup := by
  unfold filtered_pool
  dsimp only
  split
  · exact backfill_nodup fam _ _ ((select_recipe_group_nodup meal_type day_type).filter _)
  · exact (select_recipe_group_nodup meal_type day_type).filter _

/-- C5 amended: `get_smart_recommendations` returns exactly `count` recipes
whenever the surviving pool holds at least `count` **non-favorite** recipes;
as the counterexample shows, a pool of ≥ `count` recipes does not suffice
when favorites beyond the `max 1 (count / 3)` cap crowd out the result. -/
theorem c5_amended_exact_count_from_nonfavorites
    (shF shN : List Recipe → List Recipe) (fam : FamilyState)
    (meal_type day_type : String) (count : ℕ)
    (hF : ∀ l, (shF l).Perm l) (hN : ∀ l, (shN l).Perm l) (hc : 1 ≤ count)
    (hpool : count ≤ ((filtered_pool fam meal_type day_type count).filter
        (fun r => decide (r.title ∉ fam.preferences.family_favorites))).length) :
    (get_smart_recommendations shF shN fam meal_type day_type count).length = count := by
  unfold get_smart_recommendations
  dsimp only
  have hnonfav_nd : (shN ((filtered_pool fam meal_type day_type count).filter
      (fun r => decide (r.title ∉ fam.preferences.family_favorites)))).Nodup :=
    ((hN _).nodup_iff).mpr
      ((filtered_pool_nodup fam meal_type day_type count).filter _)
  have hinit_le : ((shF ((filtered_pool fam meal_type day_type count).filter
      (fun r => decide (r.title ∈ fam.preferences.family_favorites)))).take
        (max 1 (count / 3))).length ≤ count := by
    refine le_trans (List.length_take_le _ _) ?_
    exact Nat.max_le.mpr ⟨hc, Nat.div_le_self count 3⟩
  have hdisj : ∀ x ∈ shN ((filtered_pool fam meal_type day_type count).filter
      (fun r => decide (r.title ∉ fam.preferences.family_favorites))),
      x ∉ (shF ((filtered_pool fam meal_type day_type count).filter
        (fun r => decide (r.title ∈ fam.preferences.family_favorites)))).take
          (max 1 (count / 3)) := by
    intro x hx hxinit
    have hx1 := List.of_mem_filter ((hN _).mem_iff.mp hx)
    have hx2 := List.of_mem_filter ((hF _).mem_iff.mp (List.mem_of_mem_take hxinit))
    simp only [decide_eq_true_eq] at hx1 hx2
    exact hx1 hx2
  rw [List.length_take,
    build_fold_length count _ _ hnonfav_nd hdisj hinit_le,
    (hN _).length_eq]
  omega

/-- Witness for the amended C5: identity shuffles, the initial preference
state (no favorites, so all four weekday dinners are non-favorites),
`count = 2` yields exactly 2 recipes. -/
theorem c5_amended_exact_count_from_nonfavorites_witness :
    (get_smart_recommendations id id initial_family_state
      "dinner" "weekday" 2).length = 2 :=
  c5_amended_exact_count_from_nonfavorites id id initial_family_state
    "dinner" "weekday" 2 (fun l => List.Perm.refl l) (fun l => List.Perm.refl l)
    (by decide) (by decide)

end MealPlanner
